import Mathlib

/-!
Verification of the heidi-cli run/loop engine, its logging and redaction
layer, the framed RPC client, and the streaming surface, as a shallow
embedding of the Python sources (`heidi_cli/server.py`,
`heidi_cli/logging.py`, `heidi_cli/orchestrator/executors.py`,
`heidi_cli/copilot_runtime.py`, `heidi_cli/rpc_client.py`).
Machine strings are `String`/`List Char`; filesystem and socket effects are
explicit state or oracle parameters; Python exceptions are explicit sum
constructors.
-/

namespace Heidi

/- ## Character helpers (ASCII fragment used by the sources)

`isPySpace` is Python's whitespace set for `str.strip` and regex `\s`
(the inputs of interest are ASCII).  `isWordChar` is regex `\w`. -/

def nl : Char := Char.ofNat 10

def quot : Char := Char.ofNat 34

def apo : Char := Char.ofNat 39

def isPySpace (c : Char) : Bool :=
  let n := c.toNat
  (n == 32) || (n == 9) || (n == 10) || (n == 13) || (n == 11) || (n == 12)

def isWordChar (c : Char) : Bool :=
  let n := c.toNat
  (65 ≤ n && n ≤ 90) || (97 ≤ n && n ≤ 122) || (48 ≤ n && n ≤ 57) || (n == 95)

def isAlnum (c : Char) : Bool :=
  let n := c.toNat
  (65 ≤ n && n ≤ 90) || (97 ≤ n && n ≤ 122) || (48 ≤ n && n ≤ 57)

def isUpperNumU (c : Char) : Bool :=
  let n := c.toNat
  (65 ≤ n && n ≤ 90) || (48 ≤ n && n ≤ 57) || (n == 95)

def isNotSpace (c : Char) : Bool := !(isPySpace c)

def isNotSpaceQuote (c : Char) : Bool := !(isPySpace c) && c != quot && c != apo

def isNotQuote (c : Char) : Bool := c != quot

def isColonEq (c : Char) : Bool := (c == ':') || (c == '=')

def isColon (c : Char) : Bool := c == ':'

def lowerC (c : Char) : Char :=
  let n := c.toNat
  if 65 ≤ n && n ≤ 90 then Char.ofNat (n + 32) else c

/-- Python `str.strip()` on a character list: drop leading and trailing
whitespace. -/
def pyStrip (l : List Char) : List Char :=
  ((l.dropWhile isPySpace).reverse.dropWhile isPySpace).reverse

/-- Python `str.strip()` on a `String`. -/
def pyStripS (s : String) : String := String.mk (pyStrip s.data)

/- ## A small regex engine

Exactly the constructs used by `SECRET_PATTERNS` in `heidi_cli/logging.py`:
literals (case-sensitive and case-insensitive), single-character classes,
greedy `*`, `+`, `{n}` and `{n,}` over classes, alternation of sequences,
numbered capture groups, and the word boundary `\b`.  Matching follows
Python `re` semantics: leftmost match position, then backtracking
preference order (greedy repetitions longest-first, alternatives in
written order). -/

inductive RE where
  | lit : List Char → RE
  | litCI : List Char → RE
  | cls : (Char → Bool) → RE
  | star : (Char → Bool) → RE
  | plus : (Char → Bool) → RE
  | repExact : Nat → (Char → Bool) → RE
  | repAtLeast : Nat → (Char → Bool) → RE
  | alt : List (List RE) → RE
  | group : Nat → List RE → RE
  | wordB : RE

abbrev Groups := List (Nat × List Char)

def getGrp (g : Groups) (n : Nat) : List Char := (g.lookup n).getD []

def isWordO : Option Char → Bool
  | some c => isWordChar c
  | none => false

def lastCharOr (prev : Option Char) (c : List Char) : Option Char :=
  match c.getLast? with
  | some ch => some ch
  | none => prev

def litPrefixCI (l s : List Char) : Bool :=
  (l.map lowerC).isPrefixOf (s.map lowerC)

/-- All ways one regex sequence can match a prefix of `s`, in Python
backtracking preference order; each result is (captured groups, consumed
text, remaining input).  `prev` is the character just before the current
position (for `\b`).  Fuel bounds recursion depth; it is never exhausted
for the fixed `SECRET_PATTERNS` with `matchFuel`. -/
def seqMatch : Nat → List RE → Option Char → List Char → List (Groups × List Char × List Char)
  | 0, _, _, _ => []
  | _ + 1, [], _, s => [([], [], s)]
  | fuel + 1, re :: rest, prev, s =>
    let heads : List (Groups × List Char × List Char) :=
      match re with
      | .lit l => if l.isPrefixOf s then [([], l, s.drop l.length)] else []
      | .litCI l =>
        if litPrefixCI l s then [([], s.take l.length, s.drop l.length)] else []
      | .cls p =>
        match s with
        | c :: t => if p c then [([], [c], t)] else []
        | [] => []
      | .star p =>
        let run := s.takeWhile p
        (List.range (run.length + 1)).reverse.map fun k => ([], s.take k, s.drop k)
      | .plus p =>
        let run := s.takeWhile p
        ((List.range (run.length + 1)).reverse.filter (fun k => k ≥ 1)).map
          fun k => ([], s.take k, s.drop k)
      | .repExact n p =>
        let t := s.take n
        if t.length == n && t.all p then [([], t, s.drop n)] else []
      | .repAtLeast n p =>
        let run := s.takeWhile p
        ((List.range (run.length + 1)).reverse.filter (fun k => k ≥ n)).map
          fun k => ([], s.take k, s.drop k)
      | .alt alts => alts.flatMap fun a => seqMatch fuel a prev s
      | .group n a =>
        (seqMatch fuel a prev s).map fun r => ((n, r.2.1) :: r.1, r.2.1, r.2.2)
      | .wordB =>
        if isWordO prev != isWordO s.head? then [([], [], s)] else []
    heads.flatMap fun r1 =>
      (seqMatch fuel rest (lastCharOr prev r1.2.1) r1.2.2).map fun r2 =>
        (r1.1 ++ r2.1, r1.2.1 ++ r2.2.1, r2.2.2)

def matchFuel : Nat := 200

/-- Python `re.sub`: scan left to right, replace the leftmost-preferred
match, continue right after it; positions with no match copy one
character.  A (never occurring) empty match also advances one character so
`fuel = input length + 1` always suffices. -/
def subScan : Nat → List RE → (Groups → List Char) → Option Char → List Char → List Char
  | 0, _, _, _, s => s
  | fuel + 1, pat, tmpl, prev, s =>
    match (seqMatch matchFuel pat prev s).head? with
    | some (g, c, rest) =>
      if c.isEmpty then
        match s with
        | [] => []
        | ch :: t => ch :: subScan fuel pat tmpl (some ch) t
      else tmpl g ++ subScan fuel pat tmpl (lastCharOr prev c) rest
    | none =>
      match s with
      | [] => []
      | ch :: t => ch :: subScan fuel pat tmpl (some ch) t

/- ## `SECRET_PATTERNS` and `redact_secrets` (`heidi_cli/logging.py` lines 20-36)

Each entry is the translation of one compiled pattern together with its
replacement template (`\1` backreferences become group lookups). -/

def REDACTED : List Char := "***REDACTED***".data

def SECRET_PATTERNS : List (List RE × (Groups → List Char)) :=
  [ -- (ghp_[a-zA-Z0-9]\x7b36\x7d)  ->  ***REDACTED***
    ([.group 1 [.lit "ghp_".data, .repExact 36 isAlnum]], fun _ => REDACTED),
    -- (github_pat_[a-zA-Z0-9_]\x7b22,\x7d)  ->  ***REDACTED***
    ([.group 1 [.lit "github_pat_".data, .repAtLeast 22 isWordChar]], fun _ => REDACTED),
    -- (COPILOT_GITHUB_TOKEN=)([^\s]*)  ->  \1***REDACTED***
    ([.group 1 [.lit "COPILOT_GITHUB_TOKEN=".data], .group 2 [.star isNotSpace]],
      fun g => getGrp g 1 ++ REDACTED),
    -- (GH_TOKEN=)([^\s]*)  ->  \1***REDACTED***
    ([.group 1 [.lit "GH_TOKEN=".data], .group 2 [.star isNotSpace]],
      fun g => getGrp g 1 ++ REDACTED),
    -- (GITHUB_TOKEN=)([^\s]*)  ->  \1***REDACTED***
    ([.group 1 [.lit "GITHUB_TOKEN=".data], .group 2 [.star isNotSpace]],
      fun g => getGrp g 1 ++ REDACTED),
    -- \b(GH_TOKEN|GITHUB_TOKEN|COPILOT_GITHUB_TOKEN)\b\s*[:=]\s*([^\s\"']+)  ->  \1=***REDACTED***
    ([.wordB,
      .group 1 [.alt [[.lit "GH_TOKEN".data], [.lit "GITHUB_TOKEN".data],
                      [.lit "COPILOT_GITHUB_TOKEN".data]]],
      .wordB, .star isPySpace, .cls isColonEq, .star isPySpace,
      .group 2 [.plus isNotSpaceQuote]],
      fun g => getGrp g 1 ++ "=".data ++ REDACTED),
    -- \b(COPILOT_[A-Z0-9_]+)\b\s*[:=]\s*([^\s\"']+)  ->  \1=***REDACTED***
    ([.wordB, .group 1 [.lit "COPILOT_".data, .plus isUpperNumU],
      .wordB, .star isPySpace, .cls isColonEq, .star isPySpace,
      .group 2 [.plus isNotSpaceQuote]],
      fun g => getGrp g 1 ++ "=".data ++ REDACTED),
    -- \b(OPENAI_API_KEY|ANTHROPIC_API_KEY|GOOGLE_API_KEY|OPEN_ROUTER_API_KEY)\b\s*[:=]\s*([^\s\"']+)
    ([.wordB,
      .group 1 [.alt [[.lit "OPENAI_API_KEY".data], [.lit "ANTHROPIC_API_KEY".data],
                      [.lit "GOOGLE_API_KEY".data], [.lit "OPEN_ROUTER_API_KEY".data]]],
      .wordB, .star isPySpace, .cls isColonEq, .star isPySpace,
      .group 2 [.plus isNotSpaceQuote]],
      fun g => getGrp g 1 ++ "=".data ++ REDACTED),
    -- \"(github_token|copilot_github_token|gh_token)\"\s*:\s*\"([^\"]+)\"  (IGNORECASE)
    ([.lit [quot],
      .group 1 [.alt [[.litCI "github_token".data], [.litCI "copilot_github_token".data],
                      [.litCI "gh_token".data]]],
      .lit [quot], .star isPySpace, .cls isColon, .star isPySpace, .lit [quot],
      .group 2 [.plus isNotQuote], .lit [quot]],
      fun g => [quot] ++ getGrp g 1 ++ [quot, ':', quot] ++ REDACTED ++ [quot]) ]

def redactList (s : List Char) : List Char :=
  SECRET_PATTERNS.foldl (fun t pr => subScan (t.length + 1) pr.1 pr.2 none t) s

/-- Translation of `redact_secrets` (`logging.py` lines 33-36): apply each
secret pattern substitution in order. -/
def redact_secrets (s : String) : String := String.mk (redactList s.data)

/- ## JSON values and run metadata (`heidi_cli/logging.py` lines 81-89, 158-174)

`J` models the JSON values stored in `run.json`.  Python dicts become
association lists in insertion order; `dictSet` is Python dict item
assignment (replace in place, else append) and `dictUpdate` is
`dict.update`. -/

inductive J where
  | str : String → J
  | num : Int → J
  | bool : Bool → J
  | null : J
  | arr : List J → J
  | obj : List (String × J) → J

/-- Extract the string payload of an optional JSON value (proof-side helper
for comparing metadata fields without deciding equality of full `J`
trees). -/
def getStr : Option J → Option String
  | some (.str s) => some s
  | _ => none

def getBool : Option J → Option Bool
  | some (.bool b) => some b
  | _ => none

def dictSet : List (String × J) → String → J → List (String × J)
  | [], k, v => [(k, v)]
  | p :: d, k, v => if p.1 = k then (k, v) :: d else p :: dictSet d k v

def dictUpdate (base upd : List (String × J)) : List (String × J) :=
  upd.foldl (fun d p => dictSet d p.1 p.2) base

mutual

/-- Translation of `HeidiLogger._redact_meta`: redact every string value,
recurse through dicts (values only) and lists, leave other scalars
alone. -/
def _redact_meta : J → J
  | .str s => .str (redact_secrets s)
  | .obj kvs => .obj (redactMetaObj kvs)
  | .arr xs => .arr (redactMetaArr xs)
  | .num n => .num n
  | .bool b => .bool b
  | .null => .null

def redactMetaArr : List J → List J
  | [] => []
  | x :: xs => _redact_meta x :: redactMetaArr xs

def redactMetaObj : List (String × J) → List (String × J)
  | [] => []
  | (k, v) :: kvs => (k, _redact_meta v) :: redactMetaObj kvs

end

/-- Translation of the metadata writer of `HeidiLogger` (`logging.py` lines
158-174): read the existing `run.json` object (`base`; an unreadable file
means `base = []`), overlay the update, stamp `updated_at` with the
current time, redact, and write back. -/
def writeRunMeta (base upd : List (String × J)) (now : String) : List (String × J) :=
  redactMetaObj (dictSet (dictUpdate base upd) "updated_at" (.str now))

/- ## `ExecResult` (`heidi_cli/orchestrator/executors.py` lines 14-22) -/

structure ExecResult where
  ok : Bool
  output : String
  events : List J

/-- Constructing an `ExecResult`: the dataclass `__init__` takes
`events : list | None = None` and `__post_init__` replaces `None` with
`[]`, so the stored field is always a list. -/
def ExecResult.make (ok : Bool) (output : String) (events : Option (List J)) : ExecResult :=
  { ok := ok, output := output,
    events := match events with
      | none => []
      | some es => es }

/- ## `_execute_run` (`heidi_cli/server.py` lines 57-79)

The background task either receives an `ExecResult` from
`executor.run(...)` or an exception escapes (`pick_executor` on an unknown
name, `create_subprocess_exec` on a missing binary, ...).  The run store
is the run's `run.json` object plus the terminal `result.txt`/`error.txt`
files. -/

structure RunStore where
  meta : List (String × J)
  resultTxt : Option String
  errorTxt : Option String

inductive ExecOutcome where
  | res : ExecResult → ExecOutcome
  | exc : String → ExecOutcome

def _execute_run (outcome : ExecOutcome) (st : RunStore) (now : String) : RunStore :=
  match outcome with
  | .res r =>
    let st1 : RunStore := { st with resultTxt := some r.output }
    let st2 : RunStore :=
      { st1 with meta := writeRunMeta st1.meta [("status", .str "completed"), ("ok", .bool r.ok)] now }
    if r.ok then st2
    else { st2 with meta := writeRunMeta st2.meta [("error", .str r.output)] now }
  | .exc e =>
    let st1 : RunStore := { st with errorTxt := some e }
    { st1 with meta := writeRunMeta st1.meta [("status", .str "failed"), ("error", .str e)] now }

/- ## Framed RPC client (`heidi_cli/rpc_client.py`)

The socket is an oracle: attempt `n` either raises a connection-level
error (`none`, covering `OSError`/`ConnectionError` on connect, send, or
short read) or delivers a parsed JSON response.  Sleeps are recorded in
milliseconds. -/

def MAX_RETRIES : Nat := 2

def BACKOFF_FACTOR_MS : Nat := 500

def PAYLOAD_LIMIT : Nat := 512 * 1024

inductive SendOutcome where
  | payloadTooLarge : SendOutcome
  | response : J → SendOutcome
  | unreachable : String → SendOutcome

structure SendTrace where
  outcome : SendOutcome
  attempts : Nat
  sleeps_ms : List Nat

/-- The retry loop of `RPCClient._send` (lines 43-68): `rest` is the
number of loop iterations left out of `MAX_RETRIES + 1`, `idx` the current
attempt index; on failure sleep `BACKOFF_FACTOR * 2 ** attempt` unless the
budget is exhausted, in which case raise the unreachable fault. -/
def sendGo (oracle : Nat → Option J) : Nat → Nat → List Nat → SendTrace
  | 0, idx, sleeps => ⟨.unreachable "", idx, sleeps.reverse⟩
  | rest + 1, idx, sleeps =>
    match oracle idx with
    | some j => ⟨.response j, idx + 1, sleeps.reverse⟩
    | none =>
      if rest = 0 then
        ⟨.unreachable ("Failed to communicate with heidid after " ++ toString (MAX_RETRIES + 1) ++ " attempts"),
          idx + 1, sleeps.reverse⟩
      else sendGo oracle rest (idx + 1) (BACKOFF_FACTOR_MS * 2 ^ idx :: sleeps)

/-- Translation of `RPCClient._send` (lines 37-68): `bodyLen` is the byte
length of the UTF-8 encoded request; the 512 KiB check runs before the
connection loop. -/
def _send (bodyLen : Nat) (oracle : Nat → Option J) : SendTrace :=
  if bodyLen > PAYLOAD_LIMIT then ⟨.payloadTooLarge, 0, []⟩
  else sendGo oracle (MAX_RETRIES + 1) 0 []

inductive CallOutcome where
  | payloadTooLarge : CallOutcome
  | unreachable : String → CallOutcome
  | rpcError : Int → String → CallOutcome
  | success : J → CallOutcome
  | pyFault : CallOutcome

def errCode (e : List (String × J)) : Int :=
  match e.lookup "code" with
  | some (.num c) => c
  | _ => -1

def errMessage (e : List (String × J)) : String :=
  match e.lookup "message" with
  | some (.str m) => m
  | _ => "Unknown error"

/-- Translation of `RPCClient.call` (lines 70-81): a response whose
`error` member is present and non-null raises `RPCError(code, message)`;
otherwise the `result` member (or null) is returned.  `pyFault` marks
response shapes on which the Python source itself would raise
(`AttributeError` on a non-dict). -/
def call (bodyLen : Nat) (oracle : Nat → Option J) : CallOutcome × Nat × List Nat :=
  match _send bodyLen oracle with
  | ⟨.payloadTooLarge, a, s⟩ => (.payloadTooLarge, a, s)
  | ⟨.unreachable m, a, s⟩ => (.unreachable m, a, s)
  | ⟨.response j, a, s⟩ =>
    match j with
    | .obj kvs =>
      match kvs.lookup "error" with
      | some (.obj e) => (.rpcError (errCode e) (errMessage e), a, s)
      | some .null => (.success ((kvs.lookup "result").getD .null), a, s)
      | none => (.success ((kvs.lookup "result").getD .null), a, s)
      | some _ => (.pyFault, a, s)
    | _ => (.pyFault, a, s)

/- ## Transcript streaming (`heidi_cli/server.py` lines 170-194)

`event_generator` keeps a byte position `last_pos` (initially 0), polls
the transcript once per second, and emits the non-empty lines of the
newly appended text.  If the transcript file does not exist when the
stream starts, the generator returns immediately; otherwise the
`while True` body has no exit at all.  One `stream_tick` is one iteration
of that loop on the transcript content observed at that instant. -/

structure StreamState where
  pos : Nat
  finished : Bool

def stream_init (transcriptExists : Bool) : StreamState :=
  { pos := 0, finished := !transcriptExists }

/-- Lines emitted for newly appended text: `new_content.strip().split("\n")`
keeping only non-empty lines. -/
def emitLines (newContent : List Char) : List (List Char) :=
  ((pyStrip newContent).splitOn nl).filter (fun l => !l.isEmpty)

def stream_tick (content : List Char) (st : StreamState) : List (List Char) × StreamState :=
  if st.finished then ([], st)
  else if content.length > st.pos then
    (emitLines (content.drop st.pos), { pos := content.length, finished := false })
  else ([], { pos := st.pos, finished := false })

/- ## Managed-session timeout fault (`heidi_cli/copilot_runtime.py` lines 113-122)

On `asyncio.TimeoutError` the accumulated chunks are joined and stripped;
the raised `TimeoutError` carries the redacted message with the stripped
partial output's length (and no length suffix at all when the stripped
partial is empty). -/

def send_and_wait_timeout_msg (chunks : List String) (timeout_s : Nat) : String :=
  let strippedPart : String := pyStripS (String.join chunks)
  redact_secrets
    ("Copilot chat timed out after " ++ toString timeout_s ++ "s" ++
      (if strippedPart ≠ "" then
        " (partial_output_len=" ++ toString strippedPart.length ++ ")"
      else ""))

/- ## Read-side entry points (`heidi_cli/server.py` lines 137-194)

The filesystem is an oracle: `pathExists` answers `Path.exists`, `files`
returns the parsed JSON object of a readable JSON file, `texts` the
content of a readable text file, `transcriptLines` the parsed lines of the
transcript.  Each handler also reports the list of paths it probed, in
order, so "no filesystem access before validation" is checkable.
`ConfigManager.RUNS_DIR` is the `runsDir` parameter; `Path /` is string
concatenation with a separator (the handlers never normalize the id). -/

structure Fs where
  pathExists : String → Bool
  files : String → Option J
  texts : String → Option String
  transcriptLines : String → List J

inductive HttpResult where
  | http : Nat → String → HttpResult
  | okRecord : List (String × J) → HttpResult
  | okStream : HttpResult

/-- Translation of `get_run` (`server.py` lines 137-167).  There is no
`validate_run_id` call: the handler immediately builds
`RUNS_DIR / run_id` and probes the filesystem. -/
def get_run (runsDir : String) (fs : Fs) (run_id : String) : HttpResult × List String :=
  let run_dir := runsDir ++ "/" ++ run_id
  if !fs.pathExists run_dir then (.http 404 "Run not found", [run_dir])
  else
    let run_json := run_dir ++ "/" ++ "run.json"
    let transcript := run_dir ++ "/" ++ "transcript.jsonl"
    let base : List (String × J) := [("run_id", .str run_id)]
    let withMeta :=
      match fs.files run_json with
      | some m => base ++ [("meta", m)]
      | none => base
    let withResult :=
      match fs.texts (run_dir ++ "/" ++ "result.txt") with
      | some t => withMeta ++ [("result", .str t)]
      | none => withMeta
    let withError :=
      match fs.texts (run_dir ++ "/" ++ "error.txt") with
      | some t => withResult ++ [("error", .str t)]
      | none => withResult
    let withEvents :=
      if fs.pathExists transcript then
        withError ++ [("events", .arr (fs.transcriptLines transcript))]
      else withError
    (.okRecord withEvents,
      [run_dir, run_json, run_dir ++ "/" ++ "result.txt", run_dir ++ "/" ++ "error.txt", transcript])

/-- Translation of the entry of `stream_run` (`server.py` lines 170-177):
again no identifier validation before the existence probe. -/
def stream_run_entry (runsDir : String) (fs : Fs) (run_id : String) : HttpResult × List String :=
  let run_dir := runsDir ++ "/" ++ run_id
  if !fs.pathExists run_dir then (.http 404 "Run not found", [run_dir])
  else (.okStream, [run_dir])

/- ## Loop Controller -/

inductive LoopVerdict where
  | complete : String → LoopVerdict
  | incomplete : String → LoopVerdict
  | fault : String → LoopVerdict

inductive LoopOutcome where
  | done : String → LoopOutcome
  | failed : String → LoopOutcome

/-- Modelled from the spec: `run_loop` in `heidi_cli/orchestrator/loop.py`
is imported by `server.py` but its source file is not present in the
repository snapshot; this is the Loop Controller of spec section 4.3.
The executor is invoked with the task; a fault fails the loop immediately
(not retried), an unambiguous completion ends in `Done`, otherwise the
audit step retries while budget remains, decrementing the remaining
retries, and `max_retries` bounds re-invocations not counting the first
attempt.  `exec n` is the verdict of invocation number `n` (0-based);
`remaining` is the remaining retry budget. -/
def loopGo (exec : Nat → LoopVerdict) : Nat → Nat → LoopOutcome × Nat
  | remaining, idx =>
    match exec idx with
    | .complete r => (.done r, idx + 1)
    | .fault m => (.failed m, idx + 1)
    | .incomplete _ =>
      match remaining with
      | 0 => (.failed "retry budget exhausted", idx + 1)
      | r + 1 => loopGo exec r (idx + 1)

/-- Modelled from the spec: the Loop Controller entry — first attempt plus
at most `max_retries` re-invocations; the second component is the total
number of executor invocations performed. -/
def run_loop (exec : Nat → LoopVerdict) (max_retries : Nat) : LoopOutcome × Nat :=
  loopGo exec max_retries 0

/- ## Helper lemmas -/

theorem lookup_cons_self (a : String) (v : J) (d : List (String × J)) :
    ((a, v) :: d).lookup a = some v := by
  simp [List.lookup]

theorem lookup_cons_ne (a k : String) (v : J) (d : List (String × J))
    (h : ¬k = a) : ((a, v) :: d).lookup k = d.lookup k := by
  simp [List.lookup, beq_false_of_ne h]

theorem lookup_none_of_not_mem_keys (d : List (String × J)) (k : String)
    (h : k ∉ d.map Prod.fst) : d.lookup k = none := by
  induction d with
  | nil => rfl
  | cons p d ih =>
    obtain ⟨a, v⟩ := p
    simp only [List.map_cons, List.mem_cons] at h
    push_neg at h
    rw [lookup_cons_ne a k v d h.1]
    exact ih h.2

theorem dictSet_lookup (d : List (String × J)) (k k' : String) (v : J) :
    (dictSet d k v).lookup k' = if k' = k then some v else d.lookup k' := by
  induction d with
  | nil =>
    by_cases h : k' = k
    · subst h; simp [dictSet, lookup_cons_self]
    · show ((k, v) :: []).lookup k' = _
      rw [lookup_cons_ne k k' v [] h, if_neg h]
  | cons p d ih =>
    obtain ⟨a, b⟩ := p
    by_cases hp : a = k
    · subst hp
      by_cases h : k' = a
      · subst h; simp [dictSet, lookup_cons_self]
      · simp [dictSet, lookup_cons_ne _ _ _ _ h, h]
    · by_cases h : k' = a
      · subst h
        have hk : ¬k' = k := fun hh => hp (hh ▸ rfl)
        simp [dictSet, hp, lookup_cons_self, hk]
      · simp [dictSet, hp, lookup_cons_ne _ _ _ _ h, ih]

theorem dictUpdate_lookup_absent (base upd : List (String × J)) (k : String)
    (h : upd.lookup k = none) : (dictUpdate base upd).lookup k = base.lookup k := by
  induction upd generalizing base with
  | nil => rfl
  | cons q upd ih =>
    obtain ⟨a, v⟩ := q
    have ha : ¬(k = a) := by
      intro hh
      subst hh
      rw [lookup_cons_self] at h
      exact Option.noConfusion h
    have ht : upd.lookup k = none := by rwa [lookup_cons_ne a k v upd ha] at h
    show (dictUpdate (dictSet base a v) upd).lookup k = base.lookup k
    rw [ih (dictSet base a v) ht, dictSet_lookup, if_neg ha]

theorem dictUpdate_lookup_present (base upd : List (String × J)) (k : String) (v : J)
    (hnd : (upd.map Prod.fst).Nodup) (h : upd.lookup k = some v) :
    (dictUpdate base upd).lookup k = some v := by
  induction upd generalizing base with
  | nil => exact Option.noConfusion h
  | cons q upd ih =>
    obtain ⟨a, w⟩ := q
    simp only [List.map_cons, List.nodup_cons] at hnd
    by_cases hk : k = a
    · subst hk
      have hv : w = v := by
        rw [lookup_cons_self] at h
        exact Option.some.inj h
      subst hv
      have hnone : upd.lookup k = none := lookup_none_of_not_mem_keys upd k hnd.1
      show (dictUpdate (dictSet base k w) upd).lookup k = some w
      rw [dictUpdate_lookup_absent _ _ _ hnone, dictSet_lookup, if_pos rfl]
    · have ht : upd.lookup k = some v := by rwa [lookup_cons_ne a k w upd hk] at h
      exact ih (dictSet base a w) hnd.2 ht

theorem redactMetaObj_lookup (d : List (String × J)) (k : String) :
    (redactMetaObj d).lookup k = (d.lookup k).map _redact_meta := by
  induction d with
  | nil => rfl
  | cons p d ih =>
    obtain ⟨a, v⟩ := p
    by_cases h : k = a
    · subst h
      show ((k, _redact_meta v) :: redactMetaObj d).lookup k = _
      rw [lookup_cons_self, lookup_cons_self]
      rfl
    · show ((a, _redact_meta v) :: redactMetaObj d).lookup k = _
      rw [lookup_cons_ne a k _ _ h, lookup_cons_ne a k v d h, ih]

theorem sendGo_not_payload (oracle : Nat → Option J) (rest idx : Nat) (sleeps : List Nat) :
    (sendGo oracle rest idx sleeps).outcome ≠ .payloadTooLarge := by
  induction rest generalizing idx sleeps with
  | zero => simp [sendGo]
  | succ r ih =>
    cases h : oracle idx with
    | some j => simp [sendGo, h]
    | none =>
      by_cases hr : r = 0
      · simp [sendGo, h, hr]
      · simpa [sendGo, h, hr] using ih (idx + 1) (BACKOFF_FACTOR_MS * 2 ^ idx :: sleeps)

theorem loopGo_le (exec : Nat → LoopVerdict) (remaining idx : Nat) :
    (loopGo exec remaining idx).2 ≤ idx + remaining + 1 := by
  induction remaining generalizing idx with
  | zero => cases h : exec idx <;> simp [loopGo, h]
  | succ r ih =>
    cases h : exec idx with
    | complete s => simp [loopGo, h]
    | fault s => simp [loopGo, h]
    | incomplete s =>
      have := ih (idx + 1)
      simp only [loopGo, h]
      omega

/- ## Claim theorems -/

/-- C3: when the remote socket is unreachable on every attempt,
`RPCClient.call` makes exactly `MAX_RETRIES + 1 = 3` total connection
attempts, sleeping the exponentially doubling backoff delays (base 0.5 s,
doubling per attempt: 500 ms then 1000 ms) between attempts, and then
fails with the "server unreachable" connection fault, which is distinct
from a protocol-level RPC error outcome. -/
theorem rpc_call_unreachable_retries (oracle : Nat → Option J) (bodyLen : Nat)
    (hsize : bodyLen ≤ PAYLOAD_LIMIT) (hdown : ∀ n, oracle n = none) :
    call bodyLen oracle =
      (.unreachable ("Failed to communicate with heidid after " ++
          toString (MAX_RETRIES + 1) ++ " attempts"),
        MAX_RETRIES + 1,
        [BACKOFF_FACTOR_MS * 2 ^ 0, BACKOFF_FACTOR_MS * 2 ^ 1])
    ∧ ∀ s c m, CallOutcome.unreachable s ≠ CallOutcome.rpcError c m := by
  constructor
  · have hno : ¬(bodyLen > PAYLOAD_LIMIT) := Nat.not_lt.mpr hsize
    simp [call, _send, hno, MAX_RETRIES, sendGo, hdown 0, hdown 1, hdown 2]
  · intro s c m h
    exact CallOutcome.noConfusion h

/-- C3 witness: with the always-failing socket oracle, the instantiated
trace is exactly three attempts with sleeps 500 ms and 1000 ms. -/
theorem rpc_call_unreachable_retries_witness :
    call 0 (fun _ => none) =
      (.unreachable ("Failed to communicate with heidid after " ++
          toString (MAX_RETRIES + 1) ++ " attempts"),
        MAX_RETRIES + 1,
        [BACKOFF_FACTOR_MS * 2 ^ 0, BACKOFF_FACTOR_MS * 2 ^ 1]) :=
  (rpc_call_unreachable_retries (fun _ => none) 0 (Nat.zero_le _) (fun _ => rfl)).1

/-- C4: a request whose encoded body exceeds 512 KiB is rejected locally
with the payload-too-large error and zero connection attempts; bodies at
or under 512 KiB pass this size check (whatever the socket then does, the
outcome is never the payload rejection). -/
theorem rpc_send_size_gate (bodyLen : Nat) (oracle : Nat → Option J) :
    (bodyLen > PAYLOAD_LIMIT → _send bodyLen oracle = ⟨.payloadTooLarge, 0, []⟩)
    ∧ (bodyLen ≤ PAYLOAD_LIMIT → (_send bodyLen oracle).outcome ≠ .payloadTooLarge) := by
  constructor
  · intro h
    simp [_send, h]
  · intro h
    have hno : ¬(bodyLen > PAYLOAD_LIMIT) := Nat.not_lt.mpr h
    simpa [_send, hno] using sendGo_not_payload oracle (MAX_RETRIES + 1) 0 []

/-- C4 witness: a body of exactly 512 KiB + 1 bytes is rejected with zero
attempts, while a body of exactly 512 KiB is not size-rejected. -/
theorem rpc_send_size_gate_witness :
    _send (512 * 1024 + 1) (fun _ => none) = ⟨.payloadTooLarge, 0, []⟩
    ∧ (_send (512 * 1024) (fun _ => none)).outcome ≠ .payloadTooLarge :=
  ⟨(rpc_send_size_gate (512 * 1024 + 1) (fun _ => none)).1 (by decide),
   (rpc_send_size_gate (512 * 1024) (fun _ => none)).2 (by decide)⟩

/-- C5: the loop controller performs at most `max_retries + 1` executor
invocations in total; an executor stub that always reports incomplete with
`max_retries = 2` gives exactly 3 invocations and terminal Failed, and a
stub succeeding on its 2nd call gives exactly 2 invocations and terminal
Done.  (Loop Controller modelled from the spec, section 4.3.) -/
theorem run_loop_retry_budget (exec : Nat → LoopVerdict) (max_retries : Nat) :
    (run_loop exec max_retries).2 ≤ max_retries + 1
    ∧ run_loop (fun _ => .incomplete "not done") 2 = (.failed "retry budget exhausted", 3)
    ∧ run_loop (fun n => if n = 0 then .incomplete "first try" else .complete "ok") 2 =
        (.done "ok", 2) := by
  refine ⟨?_, rfl, rfl⟩
  simpa [run_loop] using loopGo_le exec max_retries 0

/-- C10: a constructed `ExecResult` never has a null events list: with
`events` omitted or `None` the stored field is the empty list, and an
explicit list is stored as given. -/
theorem execresult_events_never_none (ok : Bool) (out : String) :
    (ExecResult.make ok out none).events = []
    ∧ ∀ es, (ExecResult.make ok out (some es)).events = es :=
  ⟨rfl, fun _ => rfl⟩

/-- Concrete input refuting idempotence of `redact_secrets`:
`GH_TOKEN:abc'def` (the apostrophe stops pattern 6's value class on the
first pass; the rewritten `=` form lets pattern 4's `[^\s]*` swallow the
tail on a second pass). -/
def c9input : String := "GH_TOKEN:abc" ++ String.mk [apo] ++ "def"

/-- C9 counterexample: `redact_secrets` is not idempotent — on the
concrete input `GH_TOKEN:abc'def` a second application produces a
different string than the first. -/
theorem redact_secrets_not_idempotent :
    redact_secrets (redact_secrets c9input) ≠ redact_secrets c9input := by decide

/-- C9 (amended): `redact_secrets` is not idempotent in general: on
`GH_TOKEN:abc'def` the first application yields
`GH_TOKEN=***REDACTED***'def`, the second application further rewrites it
to `GH_TOKEN=***REDACTED***`, and on this input the second application's
output is a fixed point (a third application changes nothing). -/
theorem redact_secrets_second_pass :
    redact_secrets c9input = "GH_TOKEN=***REDACTED***" ++ String.mk [apo] ++ "def"
    ∧ redact_secrets (redact_secrets c9input) = "GH_TOKEN=***REDACTED***"
    ∧ redact_secrets (redact_secrets (redact_secrets c9input)) =
        redact_secrets (redact_secrets c9input) :=
  ⟨by decide, by decide, by decide⟩

/-- C7 counterexample: two timed-out calls whose accumulated partial
outputs have equal length (`"ab"` and `" a"`, both of length 2) produce
different fault messages, because the message reports the length of the
whitespace-stripped partial output (2 versus 1). -/
theorem timeout_msg_equal_len_counter :
    (String.join ["ab"]).length = (String.join [" a"]).length
    ∧ send_and_wait_timeout_msg ["ab"] 120 ≠ send_and_wait_timeout_msg [" a"] 120 :=
  ⟨rfl, by decide⟩

def msgOfLen (n t : Nat) : String :=
  "Copilot chat timed out after " ++ toString t ++ "s" ++
    (if n ≠ 0 then " (partial_output_len=" ++ toString n ++ ")" else "")

theorem string_ne_empty_iff_length (s : String) : s ≠ "" ↔ s.length ≠ 0 := by
  cases s with
  | mk data =>
    constructor
    · intro h hl
      exact h (congrArg String.mk (List.length_eq_zero.mp hl))
    · intro h he
      exact h (by simpa [String.length] using congrArg String.length he)

theorem timeout_msg_as_len (c : List String) (t : Nat) :
    send_and_wait_timeout_msg c t =
      redact_secrets (msgOfLen (pyStripS (String.join c)).length t) := by
  unfold send_and_wait_timeout_msg msgOfLen
  by_cases h : pyStripS (String.join c) = ""
  · rw [h]
    simp
  · have hl : (pyStripS (String.join c)).length ≠ 0 :=
      (string_ne_empty_iff_length _).mp h
    simp [h, hl]

/-- C7 (amended): the timeout fault message depends only on the timeout
and on the length of the whitespace-stripped accumulated partial output —
never on the partial content itself: any two timed-out calls whose
stripped partial outputs have equal length produce identical messages. -/
theorem timeout_msg_only_length (c1 c2 : List String) (t : Nat)
    (h : (pyStripS (String.join c1)).length = (pyStripS (String.join c2)).length) :
    send_and_wait_timeout_msg c1 t = send_and_wait_timeout_msg c2 t := by
  rw [timeout_msg_as_len, timeout_msg_as_len, h]

/-- C7 witness: two different partial outputs with equal stripped length
(`"hi"` and `"hi "`) produce the same timeout message. -/
theorem timeout_msg_only_length_witness :
    (pyStripS (String.join ["hi"])).length = (pyStripS (String.join ["hi "])).length
    ∧ send_and_wait_timeout_msg ["hi"] 120 = send_and_wait_timeout_msg ["hi "] 120 :=
  ⟨by decide, timeout_msg_only_length ["hi"] ["hi "] 120 (by decide)⟩

theorem write_run_meta_lookup_upd (base upd : List (String × J)) (now k : String) (v : J)
    (hk : ¬k = "updated_at") (hnd : (upd.map Prod.fst).Nodup)
    (hv : upd.lookup k = some v) :
    (writeRunMeta base upd now).lookup k = some (_redact_meta v) := by
  unfold writeRunMeta
  rw [redactMetaObj_lookup, dictSet_lookup, if_neg hk,
    dictUpdate_lookup_present base upd k v hnd hv]
  rfl

theorem write_run_meta_lookup_base (base upd : List (String × J)) (now k : String)
    (hk : ¬k = "updated_at") (hnone : upd.lookup k = none) :
    (writeRunMeta base upd now).lookup k = (base.lookup k).map _redact_meta := by
  unfold writeRunMeta
  rw [redactMetaObj_lookup, dictSet_lookup, if_neg hk,
    dictUpdate_lookup_absent base upd k hnone]

theorem write_run_meta_updated_at (base upd : List (String × J)) (now : String) :
    (writeRunMeta base upd now).lookup "updated_at" = some (.str (redact_secrets now)) := by
  unfold writeRunMeta
  rw [redactMetaObj_lookup, dictSet_lookup, if_pos rfl]
  rfl

/-- C8 (amended): every `writeRunMeta` call merge-updates the metadata
object — a key absent from the update keeps the old value re-passed
through `_redact_meta` (so an already-redacted fixed point is unchanged,
but a value the redactor still rewrites is altered), a key present in the
update gets the update's (redacted) value, and every write stamps a fresh
`updated_at`. -/
theorem write_run_meta_merge (base upd : List (String × J)) (now k : String) (v : J)
    (hk : ¬k = "updated_at") :
    (upd.lookup k = none →
      (writeRunMeta base upd now).lookup k = (base.lookup k).map _redact_meta)
    ∧ ((upd.map Prod.fst).Nodup → upd.lookup k = some v →
      (writeRunMeta base upd now).lookup k = some (_redact_meta v))
    ∧ (writeRunMeta base upd now).lookup "updated_at" = some (.str (redact_secrets now)) :=
  ⟨fun h => write_run_meta_lookup_base base upd now k hk h,
   fun hnd hv => write_run_meta_lookup_upd base upd now k v hk hnd hv,
   write_run_meta_updated_at base upd now⟩

/-- C8 witness: a concrete metadata write where the untouched key `task`
survives (here its value is a redaction fixed point) and `updated_at` is
stamped. -/
theorem write_run_meta_merge_witness :
    (([("status", J.str "done")] : List (String × J)).lookup "task" = none)
    ∧ (writeRunMeta [("task", J.str "demo")] [("status", J.str "done")] "T2").lookup "task"
        = (([("task", J.str "demo")] : List (String × J)).lookup "task").map _redact_meta
    ∧ (writeRunMeta [("task", J.str "demo")] [("status", J.str "done")] "T2").lookup "updated_at"
        = some (.str (redact_secrets "T2")) :=
  ⟨rfl,
   (write_run_meta_merge [("task", J.str "demo")] [("status", J.str "done")] "T2" "task" J.null
      (by decide)).1 rfl,
   (write_run_meta_merge [("task", J.str "demo")] [("status", J.str "done")] "T2" "task" J.null
      (by decide)).2.2⟩

/-- Existing metadata whose `note` value is exactly what an earlier
redacted write could have produced (`redact_secrets "GH_TOKEN:abc'def"`),
but is not a fixed point of `redact_secrets`. -/
def c8base : List (String × J) :=
  [("note", J.str ("GH_TOKEN=***REDACTED***" ++ String.mk [apo] ++ "def"))]

/-- C8 counterexample: a key (`note`) present in the existing file and
absent from the update is NOT preserved unchanged — the re-redaction on
write alters its value. -/
theorem write_run_meta_not_preserving :
    (([("status", J.str "completed")] : List (String × J)).lookup "note" = none)
    ∧ getStr ((writeRunMeta c8base [("status", J.str "completed")] "T").lookup "note")
        ≠ getStr (c8base.lookup "note")
    ∧ getStr ((writeRunMeta c8base [("status", J.str "completed")] "T").lookup "note")
        = some "GH_TOKEN=***REDACTED***" :=
  ⟨rfl, by decide, by decide⟩

/-- Initial run store for the C2 counterexample, as `init_run` plus the
`/run` endpoint leave it. -/
def c2store : RunStore :=
  { meta := [("run_id", J.str "r1"), ("status", J.str "running")],
    resultTxt := none, errorTxt := none }

def c2res : ExecOutcome := .res (ExecResult.make false "exit status 1" none)

/-- C2 counterexample: an executor invocation that completes with
`ExecResult.ok = false` (e.g. a non-zero exit code) is persisted with
terminal status `completed`, not `failed`. -/
theorem execute_run_ok_false_not_failed :
    getStr ((_execute_run c2res c2store "T").meta.lookup "status") = some "completed"
    ∧ getStr ((_execute_run c2res c2store "T").meta.lookup "status") ≠ some "failed" :=
  ⟨by decide, by decide⟩

/-- C2 (amended): an executor invocation from which an exception escapes
(missing binary, unknown executor) is persisted as terminal `failed` with
the error message; an invocation that returns `ExecResult.ok = false`
(e.g. non-zero exit) is persisted as `completed` with `ok = false` and
the redacted output recorded under the `error` key — not as `failed`. -/
theorem execute_run_terminal_status (st : RunStore) (now e : String) (r : ExecResult) :
    (getStr ((_execute_run (.exc e) st now).meta.lookup "status") = some "failed"
      ∧ getStr ((_execute_run (.exc e) st now).meta.lookup "error") = some (redact_secrets e)
      ∧ (_execute_run (.exc e) st now).errorTxt = some e)
    ∧ (r.ok = false →
      getStr ((_execute_run (.res r) st now).meta.lookup "status") = some "completed"
      ∧ getBool ((_execute_run (.res r) st now).meta.lookup "ok") = some false
      ∧ getStr ((_execute_run (.res r) st now).meta.lookup "error") = some (redact_secrets r.output)
      ∧ (_execute_run (.res r) st now).resultTxt = some r.output) := by
  constructor
  · refine ⟨?_, ?_, rfl⟩
    · show getStr ((writeRunMeta st.meta
          [("status", J.str "failed"), ("error", J.str e)] now).lookup "status") = some "failed"
      rw [write_run_meta_lookup_upd st.meta
        [("status", J.str "failed"), ("error", J.str e)] now "status" (J.str "failed")
        (by decide) (by simp) rfl]
      decide
    · show getStr ((writeRunMeta st.meta
          [("status", J.str "failed"), ("error", J.str e)] now).lookup "error")
        = some (redact_secrets e)
      rw [write_run_meta_lookup_upd st.meta
        [("status", J.str "failed"), ("error", J.str e)] now "error" (J.str e)
        (by decide) (by simp) rfl]
      rfl
  · intro hok
    have hmeta : (_execute_run (.res r) st now).meta =
        writeRunMeta
          (writeRunMeta st.meta [("status", J.str "completed"), ("ok", J.bool r.ok)] now)
          [("error", J.str r.output)] now := by
      simp [_execute_run, hok]
    have hres : (_execute_run (.res r) st now).resultTxt = some r.output := by
      simp [_execute_run, hok]
    refine ⟨?_, ?_, ?_, hres⟩
    · rw [hmeta,
        write_run_meta_lookup_base
          (writeRunMeta st.meta [("status", J.str "completed"), ("ok", J.bool r.ok)] now)
          [("error", J.str r.output)] now "status" (by decide) rfl,
        write_run_meta_lookup_upd st.meta
          [("status", J.str "completed"), ("ok", J.bool r.ok)] now "status" (J.str "completed")
          (by decide) (by simp) rfl]
      decide
    · rw [hmeta,
        write_run_meta_lookup_base
          (writeRunMeta st.meta [("status", J.str "completed"), ("ok", J.bool r.ok)] now)
          [("error", J.str r.output)] now "ok" (by decide) rfl,
        write_run_meta_lookup_upd st.meta
          [("status", J.str "completed"), ("ok", J.bool r.ok)] now "ok" (J.bool r.ok)
          (by decide) (by simp) rfl, hok]
      rfl
    · rw [hmeta,
        write_run_meta_lookup_upd
          (writeRunMeta st.meta [("status", J.str "completed"), ("ok", J.bool r.ok)] now)
          [("error", J.str r.output)] now "error" (J.str r.output)
          (by decide) (by simp) rfl]
      rfl

/-- C2 witness: the exception path persists `failed`, and the
`ok = false` path persists the redacted output under `error`. -/
theorem execute_run_terminal_status_witness :
    (ExecResult.make false "boom" none).ok = false
    ∧ getStr ((_execute_run (.exc "spawn failed") c2store "T").meta.lookup "status")
        = some "failed"
    ∧ getStr ((_execute_run (.res (ExecResult.make false "boom" none)) c2store "T").meta.lookup "error")
        = some (redact_secrets "boom") :=
  ⟨rfl,
   (execute_run_terminal_status c2store "T" "spawn failed" (ExecResult.make false "boom" none)).1.1,
   ((execute_run_terminal_status c2store "T" "spawn failed"
      (ExecResult.make false "boom" none)).2 rfl).2.2.1⟩

/-- C6 counterexample: the stream generator never terminates on its own —
in a scenario where the run is already terminal (`status = "completed"`
throughout, transcript no longer growing), three polling ticks still leave
the generator unfinished; indeed `stream_tick` does not consult the run
status at all. -/
theorem stream_run_never_terminates :
    ((stream_tick ("done" ++ String.mk [nl]).data
      ((stream_tick ("done" ++ String.mk [nl]).data
        ((stream_tick ("done" ++ String.mk [nl]).data (stream_init true)).2)).2)).2).finished
      = false := by decide

/-- C6 (amended): every `stream_run` event stream starts from byte offset
zero of the current transcript and yields the newly appended non-empty
lines in append order on each poll, but it does not terminate when the run
becomes terminal: the polling loop has no exit (its `finished` flag never
changes after start; only a transcript file missing at stream start ends
the generator). -/
theorem stream_run_offset_and_append :
    (∀ te, (stream_init te).pos = 0)
    ∧ (∀ old new : List Char, new ≠ [] →
        stream_tick (old ++ new) { pos := old.length, finished := false } =
          (emitLines new, { pos := old.length + new.length, finished := false }))
    ∧ (∀ content st, ((stream_tick content st).2).finished = st.finished) := by
  refine ⟨fun te => rfl, ?_, ?_⟩
  · intro old new hne
    have hlt : old.length < (old ++ new).length := by
      simp [List.length_append]
      exact List.length_pos.mpr hne
    simp [stream_tick, hlt, List.length_append]
    intro h
    exact absurd h hne
  · intro content st
    obtain ⟨pos, fin⟩ := st
    by_cases h : content.length > pos <;> cases fin <;> simp [stream_tick, h]

/-- C6 witness: appending one line to a transcript of length 3 at
position 3 emits exactly that line and advances the position. -/
theorem stream_run_offset_and_append_witness :
    ("c" ++ String.mk [nl]).data ≠ []
    ∧ stream_tick (("ab" ++ String.mk [nl]).data ++ ("c" ++ String.mk [nl]).data)
        { pos := 3, finished := false } =
      (emitLines ("c" ++ String.mk [nl]).data, { pos := 3 + 2, finished := false }) :=
  ⟨by decide,
   stream_run_offset_and_append.2.1 ("ab" ++ String.mk [nl]).data
     ("c" ++ String.mk [nl]).data (by decide)⟩

/-- C1: neither `get_run` nor `stream_run` performs any run-identifier
validation — on the traversal identifier `../evil` (which contains both a
path separator and `..`) each handler's very first action is a filesystem
probe of `RUNS_DIR / "../evil"`, and the outcome is never a 400-class
`InvalidArgument` rejection, for every filesystem state. -/
theorem get_run_no_validation (runsDir : String) (fs : Fs) :
    ((get_run runsDir fs "../evil").2.head? = some (runsDir ++ "/" ++ "../evil")
      ∧ ∀ detail, (get_run runsDir fs "../evil").1 ≠ .http 400 detail)
    ∧ ((stream_run_entry runsDir fs "../evil").2.head? = some (runsDir ++ "/" ++ "../evil")
      ∧ ∀ detail, (stream_run_entry runsDir fs "../evil").1 ≠ .http 400 detail) := by
  constructor
  · constructor
    · by_cases h : fs.pathExists (runsDir ++ "/" ++ "../evil") <;> simp [get_run, h]
    · intro detail hcontra
      by_cases h : fs.pathExists (runsDir ++ "/" ++ "../evil") <;>
        simp [get_run, h] at hcontra
  · constructor
    · by_cases h : fs.pathExists (runsDir ++ "/" ++ "../evil") <;> simp [stream_run_entry, h]
    · intro detail hcontra
      by_cases h : fs.pathExists (runsDir ++ "/" ++ "../evil") <;>
        simp [stream_run_entry, h] at hcontra

end Heidi
